import Mathlib

set_option maxRecDepth 100000

/-!
Verification of the `mlflow.projects` orchestration core
(`src/mlflow/projects/__init__.py`).

Shallow embedding conventions:
* Python strings are modelled as `List Char` (named `Str` below); where the
  source hashes UTF-8 encoded text, the byte sequence is modelled as
  `List Nat`.
* Calls to external collaborators (filesystem, git, the tracking client,
  the conda and docker executables, the manifest parser) are modelled as
  oracle fields of a `World` structure, and the calls the code makes are
  recorded in an explicit effect trace (`Effect`).
* Fallible Python code (raising exceptions) is modelled with
  `Except PyErr` / `Option PyErr`.
* The embedding assumes a POSIX host (`os.name != "nt"` branches).
-/

abbrev Str := List Char

/-- Convert a Lean string literal to the `List Char` representation. -/
def str (s : String) : Str := s.toList

/-- Exceptions raised by the embedded code. -/
inductive PyErr where
  /-- `mlflow.exceptions.ExecutionException` carrying its message. -/
  | executionException (msg : Str)
  /-- `mlflow.exceptions.MlflowException` carrying its message. -/
  | mlflowException (msg : Str)
  /-- A failed `assert` statement. -/
  | assertionError
  /-- Attribute access on a missing attribute (e.g. `origin.refs.master`
      when the remote has no `master` ref). -/
  | attributeError
  /-- `None[:7]`-style type errors. -/
  | typeError
  /-- `KeyboardInterrupt` re-raised by `_wait_for`. -/
  | keyboardInterrupt
deriving DecidableEq

/-! ## POSIX path helpers (`os.path` on a POSIX host) -/

/-- Split a character list on `'/'` (the pieces between separators). -/
def splitSlash : Str → List Str
  | [] => [[]]
  | c :: rest =>
    let r := splitSlash rest
    if c = '/' then [] :: r
    else
      match r with
      | h :: t => (c :: h) :: t
      | [] => [[c]]

/-- Join pieces with a separator (Python `sep.join(parts)`). -/
def joinSep (sep : Str) : List Str → Str
  | [] => []
  | [x] => x
  | x :: xs => x ++ sep ++ joinSep sep xs

/-- `posixpath.normpath`: collapse separators, `.` and `..` components,
preserving the POSIX double-slash special case. -/
def normpath (path : Str) : Str :=
  if path = [] then str "." else
  let initialSlashes : Nat :=
    if path.take 2 = str "//" ∧ path.take 3 ≠ str "///" then 2
    else if path.take 1 = str "/" then 1 else 0
  let comps := splitSlash path
  let newComps := comps.foldl (fun acc comp =>
    if comp = [] ∨ comp = str "." then acc
    else if comp ≠ str ".." ∨ (initialSlashes = 0 ∧ acc = []) ∨
        (acc ≠ [] ∧ acc.getLast? = some (str "..")) then acc ++ [comp]
    else if acc ≠ [] then acc.dropLast else acc) []
  let result := List.replicate initialSlashes '/' ++ joinSep (str "/") newComps
  if result = [] then str "." else result

/-- `posixpath.join` restricted to two arguments. -/
def pathJoin (a b : Str) : Str :=
  if b.take 1 = str "/" then b
  else if a = [] ∨ a.getLast? = some '/' then a ++ b
  else a ++ str "/" ++ b

/-- `os.path.abspath` relative to an explicit current working directory:
`normpath(join(cwd, path))`. -/
def abspath (cwd p : Str) : Str := normpath (pathJoin cwd p)

/-- `os.path.basename`: the part after the last `'/'`. -/
def basename (p : Str) : Str := (p.reverse.takeWhile (fun c => c != '/')).reverse

/-! ## URI classification (`_GIT_URI_REGEX`, `_FILE_URI_REGEX`, `_ZIP_URI_REGEX`) -/

/-- `re.match` of `_GIT_URI_REGEX = r"^[^/]*:"`: the string has a `':'`
before its first `'/'`. -/
def gitUriMatch (u : Str) : Bool := decide (':' ∈ u.takeWhile (fun c => c != '/'))

/-- `_is_local_uri`: `not _GIT_URI_REGEX.match(uri)`. -/
def _is_local_uri (u : Str) : Bool := ! gitUriMatch u

/-- `_is_zip_uri`: `re.match` of `_ZIP_URI_REGEX = r".+\.zip$"`, i.e. the
string ends with `".zip"` preceded by at least one character (newline-free
URIs assumed). -/
def _is_zip_uri (u : Str) : Bool := decide (5 ≤ u.length ∧ str ".zip" <:+ u)

/-- `_is_file_uri`: `re.match` of `_FILE_URI_REGEX = r"^file://.+"`. -/
def _is_file_uri (u : Str) : Bool := decide (str "file://" <+: u ∧ 8 ≤ u.length)

/-! ## `_parse_subdirectory` -/

/-- The subdirectory component computed by `_parse_subdirectory` before the
`'.'` check: everything after the first `'#'` (empty when there is none). -/
def rawSubdirectory (uri : Str) : Str :=
  if '#' ∈ uri then (uri.dropWhile (fun c => c != '#')).tail else []

/-- The base component computed by `_parse_subdirectory`: everything before
the first `'#'` (the whole string when there is none). -/
def basePart (uri : Str) : Str :=
  if '#' ∈ uri then uri.takeWhile (fun c => c != '#') else uri

/-- `_parse_subdirectory`: split a reference on the first `'#'`, rejecting a
non-empty subdirectory that contains `'.'`. -/
def _parse_subdirectory (uri : Str) : Except PyErr (Str × Str) :=
  if rawSubdirectory uri ≠ [] ∧ '.' ∈ rawSubdirectory uri then
    .error (.executionException (str "'.' is not allowed in project subdirectory paths."))
  else
    .ok (basePart uri, rawSubdirectory uri)

/-- Reference kinds of the spec's data model (`{local, git, archive}`),
classified from a base string in the order the code tests them
(archive first, then the local-vs-git scheme heuristic). -/
inductive RefKind where
  | local
  | git
  | archive
deriving DecidableEq

/-- Kind classification of a parsed base. -/
def referenceKind (base : Str) : RefKind :=
  if _is_zip_uri base then .archive
  else if _is_local_uri base then .local
  else .git

/-- `_expand_uri`. -/
def _expand_uri (cwd uri : Str) : Str :=
  if _is_local_uri uri then abspath cwd uri else uri

/-! ## SHA-1 (`hashlib.sha1(...).hexdigest()`)

Machine words are `Nat` reduced modulo `2 ^ 32`; messages are byte lists. -/

/-- Truncate to a 32-bit word. -/
def w32 (x : Nat) : Nat := x % 4294967296

/-- 32-bit left rotation. -/
def rotl (n x : Nat) : Nat := w32 ((x <<< n) ||| (x >>> (32 - n)))

/-- The SHA-1 round function. -/
def sha1F (i b c d : Nat) : Nat :=
  if i < 20 then (b &&& c) ||| ((b ^^^ 4294967295) &&& d)
  else if i < 40 then b ^^^ c ^^^ d
  else if i < 60 then (b &&& c) ||| (b &&& d) ||| (c &&& d)
  else b ^^^ c ^^^ d

/-- The SHA-1 round constants. -/
def sha1K (i : Nat) : Nat :=
  if i < 20 then 0x5A827999
  else if i < 40 then 0x6ED9EBA1
  else if i < 60 then 0x8F1BBCDC
  else 0xCA62C1D6

/-- Big-endian bytes of a 64-bit length value. -/
def lenBytes (n : Nat) : List Nat :=
  (List.range 8).reverse.map (fun i => (n >>> (8 * i)) % 256)

/-- SHA-1 message padding: `0x80`, zeros to 56 mod 64, 64-bit bit length. -/
def sha1Pad (msg : List Nat) : List Nat :=
  let len := msg.length
  let z := (119 - (len % 64)) % 64
  msg ++ [128] ++ List.replicate z 0 ++ lenBytes (8 * len)

/-- Pack bytes into big-endian 32-bit words. -/
def chunkWords : List Nat → List Nat
  | a :: b :: c :: d :: rest => ((a <<< 24) + (b <<< 16) + (c <<< 8) + d) :: chunkWords rest
  | _ => []

/-- Split a byte list into 64-byte chunks (fuel-based structural recursion,
so that the definition reduces; the fuel is always sufficient). -/
def toChunksFuel : Nat → List Nat → List (List Nat)
  | 0, _ => []
  | _, [] => []
  | f + 1, l => l.take 64 :: toChunksFuel f (l.drop 64)

/-- Split a byte list into 64-byte chunks. -/
def toChunks (l : List Nat) : List (List Nat) := toChunksFuel (l.length + 1) l

/-- Extend the 16 message-schedule words to 80. -/
def sha1ExtendFrom (ws : Array Nat) (i fuel : Nat) : Array Nat :=
  match fuel with
  | 0 => ws
  | f + 1 =>
    sha1ExtendFrom
      (ws.push (rotl 1 (w32 ((ws.getD (i - 3) 0) ^^^ (ws.getD (i - 8) 0) ^^^
        (ws.getD (i - 14) 0) ^^^ (ws.getD (i - 16) 0))))) (i + 1) f

/-- The five SHA-1 working registers / hash words. -/
structure Sha1State where
  a : Nat
  b : Nat
  c : Nat
  d : Nat
  e : Nat

/-- One SHA-1 round. -/
def sha1Step (ws : Array Nat) (st : Sha1State) (i : Nat) : Sha1State :=
  ⟨w32 (rotl 5 st.a + sha1F i st.b st.c st.d + st.e + sha1K i + ws.getD i 0),
   st.a, rotl 30 st.b, st.c, st.d⟩

/-- Process one 64-byte chunk. -/
def sha1Chunk (h : Sha1State) (chunk : List Nat) : Sha1State :=
  let ws := sha1ExtendFrom (Array.mk (chunkWords chunk)) 16 64
  let st := (List.range 80).foldl (sha1Step ws) ⟨h.a, h.b, h.c, h.d, h.e⟩
  ⟨w32 (h.a + st.a), w32 (h.b + st.b), w32 (h.c + st.c), w32 (h.d + st.d), w32 (h.e + st.e)⟩

/-- SHA-1 digest of a byte list, as the five hash words. -/
def sha1Digest (msg : List Nat) : Sha1State :=
  (toChunks (sha1Pad msg)).foldl sha1Chunk
    ⟨0x67452301, 0xEFCDAB89, 0x98BADCFE, 0x10325476, 0xC3D2E1F0⟩

/-- A lowercase hexadecimal digit. -/
def hexDigit (n : Nat) : Char := (str "0123456789abcdef").getD n '0'

/-- Eight lowercase hex digits of a 32-bit word. -/
def hex8 (x : Nat) : Str :=
  (List.range 8).reverse.map (fun i => hexDigit ((x >>> (4 * i)) % 16))

/-- `hashlib.sha1(msg).hexdigest()`. -/
def sha1Hex (msg : List Nat) : Str :=
  let h := sha1Digest msg
  hex8 h.a ++ hex8 h.b ++ hex8 h.c ++ hex8 h.d ++ hex8 h.e

/-! ## Conda environment provisioning -/

/-- Truthiness of an optional string (Python treats `None` and `""` as falsy). -/
def truthyStr : Option Str → Bool
  | some s => ¬ s.isEmpty
  | none => false

/-- `conda_env_contents` as computed by `_get_conda_env_name`:
the spec file's bytes when a (truthy) path is given, else empty.  The
filesystem is the oracle `fc`, mapping a path to the file's UTF-8 bytes. -/
def condaEnvContents (fc : Str → List Nat) : Option Str → List Nat
  | some p => if p = [] then [] else fc p
  | none => []

/-- The bytes contributed by the optional `env_id` discriminator. -/
def envIdBytes : Option (List Nat) → List Nat
  | some e => e
  | none => []

/-- `_get_conda_env_name`: `"mlflow-%s" % sha1(contents + env_id).hexdigest()`. -/
def _get_conda_env_name (fc : Str → List Nat) (conda_env_path : Option Str)
    (env_id : Option (List Nat)) : Str :=
  str "mlflow-" ++ sha1Hex (condaEnvContents fc conda_env_path ++ envIdBytes env_id)

/-- `_get_conda_bin_executable`: prepend `$MLFLOW_CONDA_HOME/bin/` when the
environment variable (oracle `conda_home`) is set and truthy. -/
def _get_conda_bin_executable (conda_home : Option Str) (executable_name : Str) : Str :=
  match conda_home with
  | some h => if h = [] then executable_name else pathJoin h (str "bin/" ++ executable_name)
  | none => executable_name

/-! ## Tracking-run status (`RunStatus`), `_maybe_set_run_terminated`, `_wait_for` -/

/-- Modelled from the spec: the run-record status set
`{RUNNING, FINISHED, FAILED}` ("mutable status ∈ {RUNNING, FINISHED,
FAILED} (terminality is one-way)"); the `RunStatus` entity itself lives in
`mlflow.entities`, outside `src/`. -/
inductive RunStatus where
  | RUNNING
  | FINISHED
  | FAILED
deriving DecidableEq

/-- Modelled from the spec: `RunStatus.is_terminated` (from
`mlflow.entities`, outside `src/`) — a status is terminal unless it is
`RUNNING`. -/
def RunStatus.is_terminated : RunStatus → Bool
  | .RUNNING => false
  | _ => true

/-- The tracking service's run-status table (external collaborator state):
run id to current status. -/
abbrev TrackingStore := Str → RunStatus

/-- `_maybe_set_run_terminated`: re-fetch the run's current status from the
store and issue `set_terminated` only when it is not already terminal.
Returns the updated store and the list of `set_terminated` writes issued. -/
def _maybe_set_run_terminated (store : TrackingStore) (active_run : Option Str)
    (status : RunStatus) : TrackingStore × List (Str × RunStatus) :=
  match active_run with
  | none => (store, [])
  | some rid =>
    if (store rid).is_terminated then (store, [])
    else ((fun r => if r = rid then status else store r), [(rid, status)])

/-- Outcome observed while waiting on a submitted run: `wait()` returned
true, returned false, or a `KeyboardInterrupt` arrived. -/
inductive WaitOutcome where
  | success
  | failure
  | interrupted

/-- The terminal status `_wait_for` reports for each outcome. -/
def waitStatus : WaitOutcome → RunStatus
  | .success => .FINISHED
  | _ => .FAILED

/-- Result of `_wait_for`: the tracking store afterwards, the
`set_terminated` writes issued, whether `cancel()` was called, and the
exception propagated (if any). -/
structure WaitResult where
  store : TrackingStore
  writes : List (Str × RunStatus)
  cancelled : Bool
  err : Option PyErr

/-- Render an optional string the way Python interpolates it ("None" for `None`). -/
def optStr : Option Str → Str
  | some s => s
  | none => str "None"

/-- `_wait_for`: wait on the submitted run and report terminal status via
`_maybe_set_run_terminated`.  `store` is the tracking service's state when
the status is re-fetched. -/
def _wait_for (store : TrackingStore) (run_id : Option Str) (oc : WaitOutcome) : WaitResult :=
  let active_run := run_id
  match oc with
  | .success =>
    let (s, w) := _maybe_set_run_terminated store active_run .FINISHED
    ⟨s, w, false, none⟩
  | .failure =>
    let (s, w) := _maybe_set_run_terminated store active_run .FAILED
    ⟨s, w, false,
      some (.executionException (str "Run (ID '" ++ optStr run_id ++ str "') failed"))⟩
  | .interrupted =>
    let (s, w) := _maybe_set_run_terminated store active_run .FAILED
    ⟨s, w, true, some .keyboardInterrupt⟩

/-! ## Effect traces and oracle worlds -/

/-- Observable calls the pipeline makes on its collaborators, in order. -/
inductive Effect where
  /-- `tempfile.mkdtemp()` performed by `_fetch_project`. -/
  | mkdtemp (dir : Str)
  /-- `_unzip_repo` of a local ZIP file into `dst`. -/
  | unzipLocal (zip dst : Str)
  /-- `requests.get` performed by `_fetch_zip_repo`. -/
  | fetchZipHttp (uri : Str)
  /-- `_unzip_repo` of remotely fetched ZIP bytes into `dst`. -/
  | unzipRemote (dst : Str)
  /-- `dir_util.copy_tree`. -/
  | copyTree (src dst : Str)
  /-- `git.Repo.init(dst_dir)`. -/
  | gitInit (dst : Str)
  /-- `repo.create_remote(name, uri)`. -/
  | gitCreateRemote (name uri : Str)
  /-- `origin.fetch()`. -/
  | gitFetch (name : Str)
  /-- `repo.git.checkout(version)` (successful). -/
  | gitCheckout (version : Str)
  /-- `repo.create_head(name, remoteRef)`. -/
  | gitCreateHead (name remoteRef : Str)
  /-- `repo.heads.<name>.checkout()`. -/
  | gitCheckoutHead (name : Str)
  /-- `MlflowClient().get_run(run_id)`. -/
  | getRun (run_id : Str)
  /-- `MlflowClient().create_run(experiment_id, tags)` yielding `run_id`. -/
  | createRun (experiment_id run_id : Str) (tags : List (Str × Str))
  /-- `MlflowClient().log_param(run_id, key, value)`. -/
  | logParam (run_id key value : Str)
  /-- `MlflowClient().set_tag(run_id, key, value)`. -/
  | setTag (run_id key value : Str)
  /-- `process.exec_cmd` of the conda executable. -/
  | condaExec (args : List Str)
  /-- Conda environment creation (`conda env create` when a spec file is
      given, `conda create -n ... python` otherwise). -/
  | condaCreate (name : Str) (specFile : Option Str)
  /-- `process.exec_cmd(["docker", "--help"])`. -/
  | dockerExec
  /-- `_create_docker_build_ctx`. -/
  | createDockerBuildCtx (work_dir : Str)
  /-- `client.images.build` producing a tagged image. -/
  | dockerBuild (tag : Str)
  /-- `os.makedirs` in `_get_storage_dir`. -/
  | makedirs (dir : Str)
  /-- `tempfile.mkdtemp(dir=storage_dir)` in `_get_storage_dir`. -/
  | mkstorage (dir : Str)
  /-- `subprocess.Popen(["bash", "-c", command], cwd=work_dir)`. -/
  | launch (command work_dir : Str)
  /-- `subprocess.Popen` of an `mlflow run` command line. -/
  | launchMlflowRun (args : List Str)
  /-- Delegation to `run_databricks`. -/
  | runDatabricks
deriving DecidableEq

/-- Is this effect a `create_run` call? -/
def Effect.isCreateRun : Effect → Bool
  | .createRun _ _ _ => true
  | _ => false

/-- Is this effect a conda environment creation? -/
def Effect.isCondaCreate : Effect → Bool
  | .condaCreate _ _ => true
  | _ => false

/-- Is this effect a `tempfile.mkdtemp()` for project materialization? -/
def Effect.isMkdtemp : Effect → Bool
  | .mkdtemp _ => true
  | _ => false

/-- Oracle for the remote git repository a git-kind reference points at. -/
structure GitRemote where
  /-- The branch the remote's HEAD points at (its default branch). The
      embedded code never consults this field; it exists to state the
      spec's "default branch" property. -/
  defaultBranch : Str
  /-- Branch names present on the remote. -/
  branches : List Str
  /-- Whether `git checkout version` succeeds after the fetch. -/
  checkoutOk : Str → Bool
  /-- The git diagnostic produced when `git checkout version` fails. -/
  checkoutDiag : Str → Str

/-- The manifest collaborator's view of the loaded project (external
`_project_spec.load_project`): the fields `_run` reads. -/
structure Project where
  /-- `project.name` (`None` or empty means unnamed). -/
  name : Option Str
  /-- `project.docker_env` (a dict; `None`/empty dict is falsy). -/
  docker_env : Option (List (Str × Str))
  /-- `project.conda_env_path`. -/
  conda_env_path : Option Str

/-- Truthiness of an optional dict (Python treats `None` and `{}` as falsy). -/
def truthyDict : Option (List (Str × Str)) → Bool
  | some d => ¬ d.isEmpty
  | none => false

/-- First value bound to `k` in an association list (Python `dict.get`). -/
def lookupKey (k : Str) : List (Str × Str) → Option Str
  | [] => none
  | (k2, v) :: rest => if k2 = k then some v else lookupKey k rest

/-- Oracles for the conda executable and its environment registry. -/
structure CondaWorld where
  /-- `$MLFLOW_CONDA_HOME` (unset or a path). -/
  conda_home : Option Str
  /-- Whether invoking the conda executable succeeds. -/
  condaFound : Bool
  /-- `json.loads(stdout)["envs"]` of `conda env list --json`. -/
  envPaths : List Str

/-- Databricks credentials exposed to the docker container. -/
structure DbCreds where
  host : Str
  username : Option Str
  password : Option Str
  token : Option Str
  ignoreTls : Bool

/-- All external-collaborator oracles one pipeline invocation consults. -/
structure World where
  /-- Current working directory (for `os.path.abspath`). -/
  cwd : Str
  /-- The fresh directory `tempfile.mkdtemp()` would return. -/
  tmpdir : Str
  /-- `os.path.exists`. -/
  pathExists : Str → Bool
  /-- `urllib` resolution of a `file://` ZIP URI to a filesystem path. -/
  fileUriToPath : Str → Str
  /-- Whether the HTTP fetch of a remote ZIP succeeds. -/
  zipFetchOk : Str → Bool
  /-- `str(error)` of the HTTP error when the ZIP fetch fails. -/
  httpError : Str → Str
  /-- The git remote behind a git-kind reference. -/
  remote : GitRemote
  /-- The loaded project manifest. -/
  project : Project
  /-- Result of the entry point's `_validate_parameters` (external
      validation contract; `none` means the parameters validate). -/
  validateParams : Option PyErr
  /-- Run id a fresh `create_run` returns. -/
  newRunId : Str
  /-- `final_params` from the entry point's `compute_parameters`. -/
  finalParams : List (Str × Str)
  /-- `extra_params` from the entry point's `compute_parameters`. -/
  extraParams : List (Str × Str)
  /-- `_get_git_repo_url(work_dir)`. -/
  repoUrl : Option Str
  /-- Whether `_is_valid_branch_name(work_dir, version)` holds for a set version. -/
  branchExists : Bool
  /-- Conda oracles. -/
  conda : CondaWorld
  /-- File contents (UTF-8 bytes) by path, for the conda spec file. -/
  fileContents : Str → List Nat
  /-- Whether invoking the docker executable succeeds. -/
  dockerFound : Bool
  /-- Image id reported by the docker build. -/
  dockerImageId : Str
  /-- `_get_git_commit(dir)` (external). -/
  gitCommitOf : Str → Option Str
  /-- `tracking.utils._get_git_url_if_present` (external). -/
  gitUrlIfPresent : Str → Str
  /-- `context._get_user()` (external). -/
  user : Str
  /-- Run id of the surrounding `fluent.active_run()`, if any. -/
  activeRunId : Option Str
  /-- `tracking.get_tracking_uri()`. -/
  trackingUri : Str
  /-- `tracking.utils._is_local_uri(tracking_uri)` (external). -/
  trackingUriIsLocal : Bool
  /-- `tracking.utils._is_databricks_uri(tracking_uri)` (external). -/
  trackingUriIsDatabricks : Bool
  /-- `file_utils.local_file_uri_to_path(tracking_uri)` (external). -/
  trackingLocalPath : Str
  /-- Databricks credentials for the tracking profile. -/
  dbCreds : DbCreds
  /-- The directory `tempfile.mkdtemp(dir=storage_dir)` returns. -/
  storageTmp : Str
  /-- The entry point's `compute_command(params, storage_dir)` (external). -/
  computeCommand : List (Str × Str) → Str → Str

/-! ## `_fetch_git_repo` and `_fetch_project` -/

/-- The `ExecutionException` message raised when `git checkout version`
fails (the source concatenates the two adjacent string literals, so there
is no space before the dash). -/
def checkoutErrMsg (version uri diag : Str) : Str :=
  str "Unable to checkout version '" ++ version ++ str "' of git repo " ++ uri ++
    str "- please ensure that the version exists in the repo. Error: " ++ diag

/-- `_fetch_git_repo`: init an empty repo at `dst_dir`, add `uri` as the
remote `origin`, fetch, then either check out the requested version (an
`ExecutionException` carrying the git diagnostic on failure) or create and
check out a local `master` branch tracking `origin`'s `master` ref
(an `AttributeError` from `origin.refs.master` when the remote has none). -/
def _fetch_git_repo (R : GitRemote) (uri : Str) (version : Option Str) (dst_dir : Str) :
    List Effect × Option PyErr :=
  let pre := [Effect.gitInit dst_dir, Effect.gitCreateRemote (str "origin") uri,
    Effect.gitFetch (str "origin")]
  match version with
  | some v =>
    if R.checkoutOk v then (pre ++ [Effect.gitCheckout v], none)
    else (pre, some (.executionException (checkoutErrMsg v uri (R.checkoutDiag v))))
  | none =>
    if str "master" ∈ R.branches then
      (pre ++ [Effect.gitCreateHead (str "master") (str "master"),
        Effect.gitCheckoutHead (str "master")], none)
    else (pre, some .attributeError)

/-- The materialization step of `_fetch_project` (its ZIP / local / git
branching, source lines 339-354), producing the effects performed and an
error when materialization fails.  `uri` is the raw reference (the source
tests `_is_local_uri(uri)` on it), `parsed_uri` the parsed base. -/
def fetchMaterialize (W : World) (uri parsed_uri : Str) (version : Option Str)
    (use_temp : Bool) (dst_dir : Str) : List Effect × Option PyErr :=
  if _is_zip_uri parsed_uri then
    let pu := if _is_file_uri parsed_uri then W.fileUriToPath parsed_uri else parsed_uri
    if _is_local_uri pu then ([Effect.unzipLocal pu dst_dir], none)
    else if W.zipFetchOk pu then ([Effect.fetchZipHttp pu, Effect.unzipRemote dst_dir], none)
    else ([Effect.fetchZipHttp pu],
      some (.executionException (str "Unable to retrieve ZIP file. Reason: " ++ W.httpError pu)))
  else if _is_local_uri uri then
    if version.isSome then
      ([], some (.executionException (str "Setting a version is only supported for Git project URIs")))
    else if use_temp then ([Effect.copyTree parsed_uri dst_dir], none)
    else ([], none)
  else if ¬ gitUriMatch parsed_uri then ([], some .assertionError)
  else _fetch_git_repo W.remote parsed_uri version dst_dir

/-- `_fetch_project`: parse the reference, decide whether to materialize
into a fresh temporary directory, materialize, and verify the subdirectory
exists (returning its absolute path). -/
def _fetch_project (W : World) (uri : Str) (force_tempdir : Bool) (version : Option Str) :
    List Effect × Except PyErr Str :=
  match _parse_subdirectory uri with
  | .error e => ([], .error e)
  | .ok (parsed_uri, subdirectory) =>
    let use_temp := force_tempdir || _is_zip_uri parsed_uri || !(_is_local_uri parsed_uri)
    let dst_dir := if use_temp then W.tmpdir else parsed_uri
    let eff0 : List Effect := if use_temp then [Effect.mkdtemp W.tmpdir] else []
    match fetchMaterialize W uri parsed_uri version use_temp dst_dir with
    | (eff1, some e) => (eff0 ++ eff1, .error e)
    | (eff1, none) =>
      let res := abspath W.cwd (pathJoin dst_dir subdirectory)
      if W.pathExists res then (eff0 ++ eff1, .ok res)
      else (eff0 ++ eff1, .error (.executionException
        (str "Could not find subdirectory " ++ subdirectory ++ str " of " ++ dst_dir)))

/-! ## `_get_or_create_conda_env` and command fragments -/

/-- `_get_or_create_conda_env`: probe the conda executable, list existing
environments, and create the deterministically named environment only when
its name is absent from the listing. -/
def _get_or_create_conda_env (C : CondaWorld) (fc : Str → List Nat)
    (conda_env_path : Option Str) (env_id : Option (List Nat)) :
    List Effect × Except PyErr Str :=
  let conda_path := _get_conda_bin_executable C.conda_home (str "conda")
  if ¬ C.condaFound then
    ([], .error (.executionException (str "Could not find Conda executable at " ++ conda_path ++
      str ". Ensure Conda is installed as per the instructions at " ++
      str "https://conda.io/docs/user-guide/install/index.html. You can also configure MLflow " ++
      str "to look for a specific Conda executable by setting the MLFLOW_CONDA_HOME " ++
      str "environment variable to the path of the Conda executable")))
  else
    let e1 := [Effect.condaExec [conda_path, str "--help"],
      Effect.condaExec [conda_path, str "env", str "list", str "--json"]]
    let env_names := C.envPaths.map basename
    let project_env_name := _get_conda_env_name fc conda_env_path env_id
    if project_env_name ∈ env_names then (e1, .ok project_env_name)
    else if truthyStr conda_env_path then
      (e1 ++ [Effect.condaCreate project_env_name conda_env_path], .ok project_env_name)
    else
      (e1 ++ [Effect.condaCreate project_env_name none], .ok project_env_name)

/-- `_get_conda_command` (POSIX branch): the activation fragment. -/
def _get_conda_command (conda_home : Option Str) (conda_env_name : Str) : List Str :=
  [str "source " ++ _get_conda_bin_executable conda_home (str "activate") ++
    str " " ++ conda_env_name]

/-- `_get_run_env_vars`: environment variables injected into the launched
child process (variable names from the external `mlflow.tracking` module). -/
def _get_run_env_vars (trackingUri run_id experiment_id : Str) : List (Str × Str) :=
  [(str "MLFLOW_RUN_ID", run_id),
   (str "MLFLOW_TRACKING_URI", trackingUri),
   (str "MLFLOW_EXPERIMENT_ID", experiment_id)]

/-- Update the value at a key in place, preserving order (Python dict
assignment on an existing key). -/
def updateAssoc (m : List (Str × Str)) (k v : Str) : List (Str × Str) :=
  m.map (fun kv => if kv.1 = k then (k, v) else kv)

/-- The `DATABRICKS_*` variables `_get_docker_command` appends when the
tracking URI is a Databricks profile. -/
def dbCredPairs (c : DbCreds) : List (Str × Str) :=
  [(str "DATABRICKS_HOST", c.host)] ++
  (match c.username with | some u => [(str "DATABRICKS_USERNAME", u)] | none => []) ++
  (match c.password with | some p => [(str "DATABRICKS_PASSWORD", p)] | none => []) ++
  (match c.token with | some t => [(str "DATABRICKS_TOKEN", t)] | none => []) ++
  (if c.ignoreTls then [(str "DATABRICKS_INSECURE", str "True")] else [])

/-- The path inside the container where a local tracking directory is mounted. -/
def _MLFLOW_DOCKER_TRACKING_DIR_PATH : Str := str "/mlflow/tmp/mlruns"

/-- `_get_docker_command`: `docker run --rm`, an optional volume mount for a
local tracking URI, `-e` flags for the run environment variables (extended
with Databricks credentials for a Databricks tracking URI), and the image. -/
def _get_docker_command (W : World) (image run_id experiment_id : Str) : List Str :=
  let cmd := [str "docker", str "run", str "--rm"]
  let env_vars := _get_run_env_vars W.trackingUri run_id experiment_id
  let (volFlags, env_vars) :=
    if W.trackingUriIsLocal then
      ([str "-v", W.trackingLocalPath ++ str ":" ++ _MLFLOW_DOCKER_TRACKING_DIR_PATH],
       updateAssoc env_vars (str "MLFLOW_TRACKING_URI") _MLFLOW_DOCKER_TRACKING_DIR_PATH)
    else ([], env_vars)
  let env_vars :=
    if W.trackingUriIsDatabricks then
      updateAssoc env_vars (str "MLFLOW_TRACKING_URI") (str "databricks") ++ dbCredPairs W.dbCreds
    else env_vars
  cmd ++ volFlags ++
    (env_vars.map (fun kv => [str "-e", kv.1 ++ str "=" ++ kv.2])).flatten ++ [image]

/-- `_validate_docker_env`: the docker environment must carry a truthy
`image` field. -/
def _validate_docker_env (docker_env : List (Str × Str)) : Option PyErr :=
  match lookupKey (str "image") docker_env with
  | some v =>
    if v = [] then
      some (.executionException (str "Project with docker environment must specify the docker " ++
        str "image to use via an 'image' field under the 'docker_env' field"))
    else none
  | none =>
    some (.executionException (str "Project with docker environment must specify the docker " ++
      str "image to use via an 'image' field under the 'docker_env' field"))

/-- `_validate_execution_environment`: docker-based projects cannot run on
the databricks backend. -/
def _validate_execution_environment (project : Project) (backend : Option Str) : Option PyErr :=
  if truthyDict project.docker_env ∧ backend = some (str "databricks") then
    some (.executionException (str "Running docker-based projects on Databricks is not yet supported."))
  else none

/-- `_build_docker_image`: require a project name, tag the image with the
name and the short source commit (`_get_git_commit(work_dir)[:7]`, a
`TypeError` when the commit is `None`), synthesize the build context and
build, then tag the run with the image name and id. -/
def _build_docker_image (W : World) (work_dir : Str) (project : Project) (active_run : Str) :
    List Effect × Except PyErr Str :=
  if ¬ truthyStr project.name then
    ([], .error (.executionException (str "Project name in MLproject must be specified when " ++
      str "using docker for image tagging.")))
  else
    match W.gitCommitOf work_dir with
    | none => ([], .error .typeError)
    | some commit =>
      let tag_name := str "mlflow-" ++ (project.name.getD []) ++ str "-" ++ commit.take 7
      ([Effect.createDockerBuildCtx work_dir, Effect.dockerBuild tag_name,
        Effect.setTag active_run (str "mlflow.docker.image.name") tag_name,
        Effect.setTag active_run (str "mlflow.docker.image.id") W.dockerImageId],
       .ok tag_name)

/-! ## `_create_run`, storage, and the `_run` pipeline -/

/-- `_create_run`: build the provenance tags (user, source name/type, entry
point, optional commit and parent run) and create the run record.  Returns
the `create_run` effect and the new run id. -/
def _create_run (W : World) (uri experiment_id work_dir entry_point : Str) :
    Effect × Str :=
  let source_name :=
    if _is_local_uri uri then W.gitUrlIfPresent (_expand_uri W.cwd uri)
    else _expand_uri W.cwd uri
  let source_version := W.gitCommitOf work_dir
  let parent_run_id := W.activeRunId
  let tags :=
    [(str "mlflow.user", W.user),
     (str "mlflow.source.name", source_name),
     (str "mlflow.source.type", str "PROJECT"),
     (str "mlflow.project.entryPoint", entry_point)] ++
    (match source_version with
     | some v => [(str "mlflow.source.git.commit", v)]
     | none => []) ++
    (match parent_run_id with
     | some p => [(str "mlflow.parentRunId", p)]
     | none => [])
  (Effect.createRun experiment_id W.newRunId tags, W.newRunId)

/-- `_get_storage_dir`: make the storage directory when it is set but
missing, then create a fresh temporary directory beneath it. -/
def _get_storage_dir (W : World) (storage_dir : Option Str) : List Effect × Str :=
  ((match storage_dir with
    | some d => if ¬ W.pathExists d then [Effect.makedirs d] else []
    | none => []) ++ [Effect.mkstorage W.storageTmp],
   W.storageTmp)

/-- `_get_entry_point_command`: resolve the run's storage directory and
render the entry point's command (external `compute_command`). -/
def _get_entry_point_command (W : World) (parameters : List (Str × Str))
    (storage_dir : Option Str) : List Effect × List Str :=
  let (eS, sdir) := _get_storage_dir W storage_dir
  (eS, [W.computeCommand parameters sdir])

/-- `_build_mlflow_run_cmd`: the `mlflow run` argument vector for the
asynchronous re-invocation. -/
def _build_mlflow_run_cmd (uri entry_point : Str) (storage_dir : Option Str)
    (use_conda : Bool) (run_id : Str) (parameters : List (Str × Str)) : List Str :=
  [str "mlflow", str "run", uri, str "-e", entry_point, str "--run-id", run_id] ++
  (match storage_dir with
   | some d => [str "--storage-dir", d]
   | none => []) ++
  (if ¬ use_conda then [str "--no-conda"] else []) ++
  (parameters.map (fun kv => [str "-P", kv.1 ++ str "=" ++ kv.2])).flatten

/-- Decidable equality for `Except` results. -/
instance {e a : Type} [DecidableEq e] [DecidableEq a] : DecidableEq (Except e a) := fun x y =>
  match x, y with
  | .ok u, .ok v => if h : u = v then isTrue (by rw [h]) else isFalse (by simp [h])
  | .error u, .error v => if h : u = v then isTrue (by rw [h]) else isFalse (by simp [h])
  | .ok _, .error _ => isFalse (by simp)
  | .error _, .ok _ => isFalse (by simp)

/-- The run handle `_run` returns. -/
inductive SubmittedRunModel where
  /-- `LocalSubmittedRun` wrapping the blocking entry-point child process. -/
  | localRun (run_id : Str)
  /-- `LocalSubmittedRun` wrapping the detached `mlflow run` subprocess. -/
  | localSubprocess (run_id : Str) (args : List Str)
  /-- The handle returned by `run_databricks`. -/
  | databricksRun
deriving DecidableEq

/-- The effect trace of a pipeline invocation along with its result. -/
structure RunOutcome where
  effects : List Effect
  result : Except PyErr SubmittedRunModel
deriving DecidableEq

/-- Is the outcome's result an error? -/
def RunOutcome.failed (r : RunOutcome) : Bool :=
  match r.result with
  | .error _ => true
  | .ok _ => false

/-- The environment-strategy step of `_run`'s local branch (source lines
116-134): returns the tagging/provisioning effects and, on success, the
command fragments accumulated so far together with the command separator. -/
def dockerOrCondaSetup (W : World) (active_run experiment_id work_dir : Str)
    (use_conda : Bool) : List Effect × Except PyErr (List Str × Str) :=
  if truthyDict W.project.docker_env then
    let denv := W.project.docker_env.getD []
    let e1 := [Effect.setTag active_run (str "mlflow.project.env") (str "docker")]
    match _validate_docker_env denv with
    | some err => (e1, .error err)
    | none =>
      if ¬ W.dockerFound then
        (e1 ++ [Effect.dockerExec], .error (.executionException
          (str "Could not find Docker executable. Ensure Docker is installed as per the " ++
           str "instructions at https://docs.docker.com/install/overview/.")))
      else
        match _build_docker_image W work_dir W.project active_run with
        | (eB, .error err) => (e1 ++ [Effect.dockerExec] ++ eB, .error err)
        | (eB, .ok image) =>
          (e1 ++ [Effect.dockerExec] ++ eB,
           .ok (_get_docker_command W image active_run experiment_id, str " "))
  else if use_conda then
    let e1 := [Effect.setTag active_run (str "mlflow.project.env") (str "conda")]
    match _get_or_create_conda_env W.conda W.fileContents W.project.conda_env_path none with
    | (eC, .error err) => (e1 ++ eC, .error err)
    | (eC, .ok envName) =>
      (e1 ++ eC, .ok (_get_conda_command W.conda.conda_home envName, str " && "))
  else ([], .ok ([], str " "))

/-- The `local`/`None` backend branch of `_run` (source lines 115-147):
provision the environment, then either launch the joined command
synchronously or spawn a detached `mlflow run` subprocess. -/
def localBackendRun (W : World) (effPre : List Effect) (work_dir experiment_id entry_point : Str)
    (parameters : List (Str × Str)) (use_conda : Bool) (storage_dir : Option Str)
    (synchronous : Bool) (active_run : Str) : RunOutcome :=
  match dockerOrCondaSetup W active_run experiment_id work_dir use_conda with
  | (eS, .error e) => ⟨effPre ++ eS, .error e⟩
  | (eS, .ok (fragments, separator)) =>
    if synchronous then
      let (eE, entryCmds) := _get_entry_point_command W parameters storage_dir
      let command := joinSep separator (fragments ++ entryCmds)
      ⟨effPre ++ eS ++ eE ++ [Effect.launch command work_dir], .ok (.localRun active_run)⟩
    else
      let arr := _build_mlflow_run_cmd work_dir entry_point storage_dir use_conda
        active_run parameters
      ⟨effPre ++ eS ++ [Effect.launchMlflowRun arr], .ok (.localSubprocess active_run arr)⟩

/-- The message of the unsupported-backend `ExecutionException`. -/
def unsupportedBackendMsg (backend : Option Str) : Str :=
  str "Got unsupported execution mode " ++ optStr backend ++
    str ". Supported values: ['local', 'databricks']"

/-- `_run`: fetch the project, validate the backend+environment combination
and the parameters, create or attach the tracking run record, log
parameters and provenance tags, and dispatch on the backend. -/
def _run (W : World) (uri experiment_id entry_point : Str) (version : Option Str)
    (parameters : List (Str × Str)) (backend : Option Str) (use_conda : Bool)
    (storage_dir : Option Str) (synchronous : Bool) (run_id : Option Str) : RunOutcome :=
  match _fetch_project W uri false version with
  | (effF, .error e) => ⟨effF, .error e⟩
  | (effF, .ok work_dir) =>
    match _validate_execution_environment W.project backend with
    | some e => ⟨effF, .error e⟩
    | none =>
      match W.validateParams with
      | some e => ⟨effF, .error e⟩
      | none =>
        let (effR, active_run) :=
          match run_id with
          | some rid => ([Effect.getRun rid], rid)
          | none =>
            let (e, r) := _create_run W uri experiment_id work_dir entry_point
            ([e], r)
        let effP := (W.finalParams ++ W.extraParams).map
          (fun kv => Effect.logParam active_run kv.1 kv.2)
        let effU :=
          match W.repoUrl with
          | some u => [Effect.setTag active_run (str "mlflow.source.git.repoURL") u,
              Effect.setTag active_run (str "mlflow.gitRepoURL") u]
          | none => []
        let effB :=
          match version with
          | some v =>
            if W.branchExists then
              [Effect.setTag active_run (str "mlflow.source.git.branch") v,
               Effect.setTag active_run (str "mlflow.gitBranchName") v]
            else []
          | none => []
        let effPre := effF ++ effR ++ effP ++ effU ++ effB
        if backend = some (str "databricks") then
          ⟨effPre ++ [Effect.runDatabricks], .ok .databricksRun⟩
        else if backend = some (str "local") ∨ backend = none then
          localBackendRun W effPre work_dir experiment_id entry_point parameters
            use_conda storage_dir synchronous active_run
        else
          ⟨effPre, .error (.executionException (unsupportedBackendMsg backend))⟩

/-! ## Concrete sample oracles for witnesses and counterexamples -/

/-- A sample git remote whose default branch is `master`. -/
def remoteMaster : GitRemote :=
  { defaultBranch := str "master", branches := [str "master"],
    checkoutOk := fun _ => true, checkoutDiag := fun _ => str "" }

/-- A sample git remote whose default branch is `main` (while also carrying
a `master` branch). -/
def remoteMain : GitRemote :=
  { defaultBranch := str "main", branches := [str "main", str "master"],
    checkoutOk := fun _ => true, checkoutDiag := fun _ => str "" }

/-- A sample conda world with a working conda and no environments yet. -/
def condaBase : CondaWorld :=
  { conda_home := none, condaFound := true, envPaths := [] }

/-- A sample project with no docker or conda environment. -/
def projectBase : Project :=
  { name := none, docker_env := none, conda_env_path := none }

/-- A baseline oracle world: every path exists, validation passes, no
surrounding run, no git metadata. -/
def baseWorld : World :=
  { cwd := str "/w", tmpdir := str "/tmp/tmpx",
    pathExists := fun _ => true,
    fileUriToPath := fun u => u,
    zipFetchOk := fun _ => true,
    httpError := fun _ => str "",
    remote := remoteMaster,
    project := projectBase,
    validateParams := none,
    newRunId := str "run1",
    finalParams := [(str "alpha", str "1")],
    extraParams := [],
    repoUrl := none,
    branchExists := false,
    conda := condaBase,
    fileContents := fun _ => [],
    dockerFound := true,
    dockerImageId := str "img1",
    gitCommitOf := fun _ => none,
    gitUrlIfPresent := fun u => u,
    user := str "alice",
    activeRunId := none,
    trackingUri := str "file:///w/mlruns",
    trackingUriIsLocal := false,
    trackingUriIsDatabricks := false,
    trackingLocalPath := str "/w/mlruns",
    dbCreds := { host := str "h", username := none, password := none,
                 token := none, ignoreTls := false },
    storageTmp := str "/tmp/storage",
    computeCommand := fun _ _ => str "python train.py" }

/-- A conda world whose listing already contains the environment name for
empty spec contents and no discriminator. -/
def condaListed : CondaWorld :=
  { conda_home := none, condaFound := true,
    envPaths := [str "mlflow-" ++ sha1Hex []] }

/-- A world whose entry-point parameter validation fails (e.g. `"alpha"` of
type float supplied as `"bad"`). -/
def worldBadParams : World :=
  { baseWorld with
    validateParams := some (PyErr.executionException (str "Invalid parameter alpha")) }

/-- The repo-URL and branch tag effects `_run` emits after logging
parameters (source lines 98-106). -/
def runTagEffects (W : World) (active_run : Str) (version : Option Str) : List Effect :=
  (match W.repoUrl with
   | some u => [Effect.setTag active_run (str "mlflow.source.git.repoURL") u,
       Effect.setTag active_run (str "mlflow.gitRepoURL") u]
   | none => []) ++
  (match version with
   | some v =>
     if W.branchExists then
       [Effect.setTag active_run (str "mlflow.source.git.branch") v,
        Effect.setTag active_run (str "mlflow.gitBranchName") v]
     else []
   | none => [])

/-- The run id `_run` operates on: the supplied one, or the id of the
freshly created record. -/
def activeRunOf (W : World) (rid : Option Str) : Str :=
  match rid with
  | some r => r
  | none => W.newRunId

/-! ## Helper lemmas -/

theorem hash_not_mem_takeWhile (l : Str) : '#' ∉ l.takeWhile (fun c => c != '#') := by
  induction l with
  | nil => simp
  | cons a l ih =>
    by_cases h : a = '#'
    · simp [List.takeWhile_cons, h]
    · simp only [List.takeWhile_cons, bne_iff_ne, ne_eq, h, not_false_eq_true, if_true,
        List.mem_cons]
      intro hc
      rcases hc with hc | hc
      · exact h hc.symm
      · exact ih hc

theorem takeWhile_append_hash (l₁ l₂ : Str) (h : '#' ∉ l₁) :
    (l₁ ++ '#' :: l₂).takeWhile (fun c => c != '#') = l₁ := by
  induction l₁ with
  | nil => simp [List.takeWhile_cons]
  | cons a l ih =>
    have ha : a ≠ '#' := fun hc => h (by simp [hc])
    have hl : '#' ∉ l := fun hc => h (by simp [hc])
    simp only [List.cons_append, List.takeWhile_cons, bne_iff_ne, ne_eq, ha, not_false_eq_true,
      if_true, ih hl]

theorem dropWhile_append_hash (l₁ l₂ : Str) (h : '#' ∉ l₁) :
    (l₁ ++ '#' :: l₂).dropWhile (fun c => c != '#') = '#' :: l₂ := by
  induction l₁ with
  | nil => simp [List.dropWhile_cons]
  | cons a l ih =>
    have ha : a ≠ '#' := fun hc => h (by simp [hc])
    have hl : '#' ∉ l := fun hc => h (by simp [hc])
    simp only [List.cons_append, List.dropWhile_cons, bne_iff_ne, ne_eq, ha, not_false_eq_true,
      if_true, ih hl]

/-! ## Claim theorems -/

/-- `basePart` of a reconstructed reference whose base has no `'#'`. -/
theorem basePart_append_hash (b s : Str) (h : '#' ∉ b) : basePart (b ++ '#' :: s) = b := by
  unfold basePart
  rw [if_pos (by simp), takeWhile_append_hash _ _ h]

/-- `rawSubdirectory` of a reconstructed reference whose base has no `'#'`. -/
theorem rawSubdirectory_append_hash (b s : Str) (h : '#' ∉ b) :
    rawSubdirectory (b ++ '#' :: s) = s := by
  unfold rawSubdirectory
  rw [if_pos (by simp), dropWhile_append_hash _ _ h]
  rfl

/-- C6: parsing a project reference round-trips: when parsing yields base
`b` and a non-empty subdirectory `s`, parsing the reconstructed string
`b ++ "#" ++ s` yields the same pair, and the kind classification of the
re-parsed base is unchanged. -/
theorem parse_subdirectory_roundtrip (uri b s : Str)
    (h : _parse_subdirectory uri = .ok (b, s)) (hs : s ≠ []) :
    _parse_subdirectory (b ++ '#' :: s) = .ok (b, s) ∧
    (∀ b2 s2, _parse_subdirectory (b ++ '#' :: s) = .ok (b2, s2) →
      referenceKind b2 = referenceKind b) := by
  unfold _parse_subdirectory at h
  split at h
  · exact absurd h (by simp)
  · rename_i hcond
    injection h with h
    injection h with hb hsub
    subst hb
    subst hsub
    have hhash : '#' ∈ uri := by
      by_contra hn
      exact hs (by simp [rawSubdirectory, hn])
    have hnot : '#' ∉ basePart uri := by
      simp only [basePart, hhash, if_true]
      exact hash_not_mem_takeWhile uri
    have hok : _parse_subdirectory (basePart uri ++ '#' :: rawSubdirectory uri) =
        .ok (basePart uri, rawSubdirectory uri) := by
      unfold _parse_subdirectory
      rw [rawSubdirectory_append_hash _ _ hnot, basePart_append_hash _ _ hnot]
      exact if_neg hcond
    refine ⟨hok, fun b2 s2 h2 => ?_⟩
    rw [hok] at h2
    injection h2 with h2
    injection h2 with hb2 _
    rw [← hb2]

/-- C6 witness: round trip at the concrete reference `"/p#s"`. -/
theorem parse_subdirectory_roundtrip_witness :
    _parse_subdirectory (str "/p" ++ '#' :: str "s") = .ok (str "/p", str "s") :=
  (parse_subdirectory_roundtrip (str "/p#s") (str "/p") (str "s")
    (by decide) (by decide)).1

/-- C7: any reference whose parsed subdirectory component is non-empty and
contains `'.'` is rejected by `_parse_subdirectory`, regardless of scheme
or kind. -/
theorem parse_subdirectory_rejects_dot (uri : Str)
    (h1 : rawSubdirectory uri ≠ []) (h2 : '.' ∈ rawSubdirectory uri) :
    _parse_subdirectory uri =
      .error (.executionException (str "'.' is not allowed in project subdirectory paths.")) := by
  unfold _parse_subdirectory
  exact if_pos ⟨h1, h2⟩

/-- C7 witness: the concrete reference `"/a#b.c"` is rejected. -/
theorem parse_subdirectory_rejects_dot_witness :
    _parse_subdirectory (str "/a#b.c") =
      .error (.executionException (str "'.' is not allowed in project subdirectory paths.")) :=
  parse_subdirectory_rejects_dot (str "/a#b.c") (by decide) (by decide)

/-- C1: `_wait_for` issues at most one `set_terminated` write, every write
carries a terminal status (`FINISHED` on success, else `FAILED`), a record
whose re-fetched status is already terminal receives no write at all, and
terminality of every record is monotonic across the call. -/
theorem wait_for_terminal_guard (store : TrackingStore) (rid : Str) (oc : WaitOutcome) :
    ((_wait_for store (some rid) oc).writes = [] ∨
      (_wait_for store (some rid) oc).writes = [(rid, waitStatus oc)]) ∧
    ((store rid).is_terminated = true →
      (_wait_for store (some rid) oc).writes = [] ∧
      (_wait_for store (some rid) oc).store = store) ∧
    ((store rid).is_terminated = false →
      (_wait_for store (some rid) oc).writes = [(rid, waitStatus oc)]) ∧
    (∀ x, (store x).is_terminated = true →
      ((_wait_for store (some rid) oc).store x).is_terminated = true) := by
  have hterm : (waitStatus oc).is_terminated = true := by
    cases oc <;> rfl
  by_cases h : (store rid).is_terminated = true
  · cases oc <;>
      simp_all [_wait_for, _maybe_set_run_terminated, waitStatus]
  · cases oc <;>
      · simp_all [_wait_for, _maybe_set_run_terminated, waitStatus]
        intro x hx
        by_cases hxr : x = rid
        · subst hxr
          simp_all
        · simp_all

/-- C1 witness: a record already `FINISHED` receives no write and the store
is unchanged. -/
theorem wait_for_terminal_guard_witness :
    (_wait_for (fun _ => RunStatus.FINISHED) (some (str "r")) .success).writes = [] ∧
    (_wait_for (fun _ => RunStatus.FINISHED) (some (str "r")) .success).store =
      (fun _ => RunStatus.FINISHED) :=
  (wait_for_terminal_guard (fun _ => RunStatus.FINISHED) (str "r") .success).2.1 rfl

/-- C3: the conda environment name is `"mlflow-"` followed by the hex SHA-1
digest of the spec file's bytes plus the optional discriminator, so two
invocations with byte-identical spec contents and the same discriminator
resolve to the same name; and when that name already appears in the package
manager's environment listing, `_get_or_create_conda_env` issues no
environment-creation command. -/
theorem conda_env_name_deterministic (fc1 fc2 : Str → List Nat) (p1 p2 : Option Str)
    (eid : Option (List Nat)) (C : CondaWorld)
    (hc : condaEnvContents fc1 p1 = condaEnvContents fc2 p2) :
    _get_conda_env_name fc1 p1 eid = _get_conda_env_name fc2 p2 eid ∧
    _get_conda_env_name fc1 p1 eid =
      str "mlflow-" ++ sha1Hex (condaEnvContents fc1 p1 ++ envIdBytes eid) ∧
    (_get_conda_env_name fc1 p1 eid ∈ C.envPaths.map basename →
      ((_get_or_create_conda_env C fc1 p1 eid).1).any Effect.isCondaCreate = false) := by
  refine ⟨by rw [_get_conda_env_name, _get_conda_env_name, hc], rfl, fun hmem => ?_⟩
  unfold _get_or_create_conda_env
  by_cases hf : C.condaFound
  · simp only [hf, not_true_eq_false, if_false, hmem, if_pos, if_true]
    rfl
  · simp [hf]

/-- C3 witness: with byte-identical (empty) contents the names coincide,
and with that name already listed no creation command is issued. -/
theorem conda_env_name_deterministic_witness :
    _get_conda_env_name (fun _ => []) none none =
      _get_conda_env_name (fun _ => [1]) none none ∧
    ((_get_or_create_conda_env condaListed (fun _ => []) none none).1).any
      Effect.isCondaCreate = false := by
  have h := conda_env_name_deterministic (fun _ => []) (fun _ => [1]) none none none
    condaListed rfl
  refine ⟨h.1, h.2.2 ?_⟩
  rw [h.2.1]
  simp only [condaListed, List.map, List.mem_singleton]
  rw [show basename (str "mlflow-" ++ sha1Hex []) = str "mlflow-" ++ sha1Hex [] from by decide]
  rfl

/-- C9 (amended): fetching a git reference initializes an empty repository,
adds the source as the remote `origin`, fetches, and then checks out the
requested version (raising an `ExecutionException` that carries the git
diagnostic when the checkout fails) or — when no version is requested —
creates and checks out a local branch named `master` tracking the remote's
`master` ref (not the remote's default branch in general). -/
theorem fetch_git_repo_behavior (R : GitRemote) (uri dst v : Str) :
    (str "master" ∈ R.branches →
      _fetch_git_repo R uri none dst =
        ([Effect.gitInit dst, Effect.gitCreateRemote (str "origin") uri,
          Effect.gitFetch (str "origin"),
          Effect.gitCreateHead (str "master") (str "master"),
          Effect.gitCheckoutHead (str "master")], none)) ∧
    (R.checkoutOk v = true →
      _fetch_git_repo R uri (some v) dst =
        ([Effect.gitInit dst, Effect.gitCreateRemote (str "origin") uri,
          Effect.gitFetch (str "origin"), Effect.gitCheckout v], none)) ∧
    (R.checkoutOk v = false →
      _fetch_git_repo R uri (some v) dst =
        ([Effect.gitInit dst, Effect.gitCreateRemote (str "origin") uri,
          Effect.gitFetch (str "origin")],
         some (.executionException (checkoutErrMsg v uri (R.checkoutDiag v)))) ∧
      (∃ pre post, checkoutErrMsg v uri (R.checkoutDiag v) =
        pre ++ R.checkoutDiag v ++ post)) := by
  refine ⟨fun hm => ?_, fun hv => ?_, fun hv =>
    ⟨?_, str "Unable to checkout version '" ++ v ++ str "' of git repo " ++ uri ++
      str "- please ensure that the version exists in the repo. Error: ", [],
      by simp [checkoutErrMsg]⟩⟩
  · simp [_fetch_git_repo, hm]
  · simp [_fetch_git_repo, hv]
  · simp [_fetch_git_repo, hv]

/-- C9 counterexample: for a remote whose default branch is `main` (and
which also has a `master` branch), the no-version path still creates a
branch tracking the remote's `master` ref, not its default branch. -/
theorem fetch_git_repo_tracks_master_not_default :
    _fetch_git_repo remoteMain (str "https://h/r.git") none (str "/tmp/tmpx") =
      ([Effect.gitInit (str "/tmp/tmpx"),
        Effect.gitCreateRemote (str "origin") (str "https://h/r.git"),
        Effect.gitFetch (str "origin"),
        Effect.gitCreateHead (str "master") (str "master"),
        Effect.gitCheckoutHead (str "master")], none) ∧
    remoteMain.defaultBranch ≠ str "master" := by
  constructor
  · decide
  · decide

/-- C9 witness: concrete instantiation of the amended no-version path. -/
theorem fetch_git_repo_behavior_witness :
    _fetch_git_repo remoteMaster (str "https://h/r.git") none (str "/tmp/tmpx") =
      ([Effect.gitInit (str "/tmp/tmpx"),
        Effect.gitCreateRemote (str "origin") (str "https://h/r.git"),
        Effect.gitFetch (str "origin"),
        Effect.gitCreateHead (str "master") (str "master"),
        Effect.gitCheckoutHead (str "master")], none) :=
  (fetch_git_repo_behavior remoteMaster (str "https://h/r.git") (str "/tmp/tmpx")
    (str "v")).1 (by decide)

/-- C4 counterexample: a version token on a local archive reference
(`"/tmp/proj.zip"`, which matches the local scheme heuristic) is silently
ignored: the fetch unzips and succeeds instead of raising a configuration
error. -/
theorem fetch_project_version_on_local_zip_succeeds :
    _fetch_project baseWorld (str "/tmp/proj.zip") false (some (str "v1")) =
      ([Effect.mkdtemp (str "/tmp/tmpx"),
        Effect.unzipLocal (str "/tmp/proj.zip") (str "/tmp/tmpx")],
       .ok (str "/tmp/tmpx")) ∧
    _is_local_uri (str "/tmp/proj.zip") = true ∧
    referenceKind (str "/tmp/proj.zip") = .archive := by
  refine ⟨?_, by decide, by decide⟩
  decide

/-- C4 (amended): a version token on a non-Git local reference causes
`_fetch_project` to fail with the configuration error — unless the
reference is of archive kind (`.zip`), in which case the version token is
ignored (see the counterexample). -/
theorem fetch_project_version_on_local_errors (W : World) (uri b s v : Str) (force : Bool)
    (hp : _parse_subdirectory uri = .ok (b, s))
    (hz : _is_zip_uri b = false)
    (hl : _is_local_uri uri = true) :
    (_fetch_project W uri force (some v)).2 =
      .error (.executionException
        (str "Setting a version is only supported for Git project URIs")) := by
  simp only [_fetch_project, hp]
  have hm : fetchMaterialize W uri b (some v)
      (force || _is_zip_uri b || !(_is_local_uri b))
      (if force || _is_zip_uri b || !(_is_local_uri b) then W.tmpdir else b) =
      ([], some (.executionException
        (str "Setting a version is only supported for Git project URIs"))) := by
    simp [fetchMaterialize, hz, hl]
  rw [hm]

/-- C4 witness: the amended statement at the concrete plain local reference
`"/tmp/proj"`. -/
theorem fetch_project_version_on_local_errors_witness :
    (_fetch_project baseWorld (str "/tmp/proj") false (some (str "v1"))).2 =
      .error (.executionException
        (str "Setting a version is only supported for Git project URIs")) :=
  fetch_project_version_on_local_errors baseWorld (str "/tmp/proj") (str "/tmp/proj") []
    (str "v1") false (by decide) (by decide) (by decide)

/-- `_fetch_git_repo` never creates a temporary directory. -/
theorem fetch_git_repo_no_mkdtemp (R : GitRemote) (uri : Str) (v : Option Str) (dst : Str) :
    ((_fetch_git_repo R uri v dst).1).any Effect.isMkdtemp = false := by
  unfold _fetch_git_repo
  cases v <;> dsimp only <;> split <;> simp [Effect.isMkdtemp]

/-- The materialization step of `_fetch_project` never creates a temporary
directory itself. -/
theorem fetchMaterialize_no_mkdtemp (W : World) (uri pu : Str) (v : Option Str)
    (ut : Bool) (dst : Str) :
    ((fetchMaterialize W uri pu v ut dst).1).any Effect.isMkdtemp = false := by
  have hg := fetch_git_repo_no_mkdtemp W.remote pu v dst
  unfold fetchMaterialize
  dsimp only
  repeat' split
  all_goals simp_all [Effect.isMkdtemp]

/-- C5 (amended): a fresh temporary directory is created exactly when the
parsed base is of archive kind, of git kind, or the force flag is set; and
a plain local reference without the flag and without a version is used in
place — with working directory the base joined with the subdirectory and no
effects beyond the existence check — provided the raw reference string
(including its `#subdirectory` suffix) also classifies as local under the
scheme heuristic (see the counterexample for a subdirectory that defeats
it). -/
theorem fetch_project_tempdir_policy (W : World) (uri b s : Str) (force : Bool)
    (version : Option Str) (hp : _parse_subdirectory uri = .ok (b, s)) :
    ((_fetch_project W uri force version).1).any Effect.isMkdtemp =
      (force || _is_zip_uri b || !(_is_local_uri b)) ∧
    (force = false → _is_zip_uri b = false → _is_local_uri b = true →
      _is_local_uri uri = true → version = none →
      W.pathExists (abspath W.cwd (pathJoin b s)) = true →
      _fetch_project W uri force version = ([], .ok (abspath W.cwd (pathJoin b s)))) := by
  constructor
  · have key : ∀ (eff1 : List Effect), eff1.any Effect.isMkdtemp = false →
        ((if (force || _is_zip_uri b || !(_is_local_uri b)) = true
          then [Effect.mkdtemp W.tmpdir] else []) ++ eff1).any Effect.isMkdtemp =
        (force || _is_zip_uri b || !(_is_local_uri b)) := by
      intro eff1 h1
      cases hc : (force || _is_zip_uri b || !(_is_local_uri b)) <;>
        simp [h1, Effect.isMkdtemp]
    simp only [_fetch_project, hp]
    have hm := fetchMaterialize_no_mkdtemp W uri b version
      (force || _is_zip_uri b || !(_is_local_uri b))
      (if force || _is_zip_uri b || !(_is_local_uri b) then W.tmpdir else b)
    rcases h : fetchMaterialize W uri b version
        (force || _is_zip_uri b || !(_is_local_uri b))
        (if force || _is_zip_uri b || !(_is_local_uri b) then W.tmpdir else b) with ⟨eff1, err⟩
    rw [h] at hm
    cases err with
    | some e => exact key eff1 hm
    | none =>
      dsimp only
      have hm2 : eff1.any Effect.isMkdtemp = false := hm
      split <;> split <;> simp_all [Effect.isMkdtemp]
  · intro hf hz hlb hlu hv he
    subst hf
    subst hv
    simp [_fetch_project, hp, fetchMaterialize, hz, hlb, hlu, he]

/-- C5 counterexample: `"proj#su:b"` has a plain local, non-archive base
and no force flag or version, yet it is not used in place: because the raw
string (with its subdirectory) matches the scheme pattern, the fetch takes
the git branch and fails its assertion instead of returning the joined
working directory. -/
theorem fetch_project_inplace_counterexample :
    _is_zip_uri (basePart (str "proj#su:b")) = false ∧
    _is_local_uri (basePart (str "proj#su:b")) = true ∧
    baseWorld.pathExists (abspath baseWorld.cwd (pathJoin (str "proj") (str "su:b"))) = true ∧
    _fetch_project baseWorld (str "proj#su:b") false none =
      ([], .error .assertionError) := by
  decide

/-- C5 witness: the claim's scenario — `"/tmp/proj#sub"`, local kind,
version unset — is fetched in place with working directory
`"/tmp/proj/sub"` and no effects (in particular no temporary directory). -/
theorem fetch_project_tempdir_policy_witness :
    _fetch_project baseWorld (str "/tmp/proj#sub") false none =
      ([], .ok (str "/tmp/proj/sub")) := by
  have h := (fetch_project_tempdir_policy baseWorld (str "/tmp/proj#sub") (str "/tmp/proj")
    (str "sub") false none (by decide)).2 rfl (by decide) (by decide) (by decide) rfl
    (by decide)
  rw [h]
  decide

/-- `_fetch_git_repo` never creates a run record. -/
theorem fetch_git_repo_no_createRun (R : GitRemote) (uri : Str) (v : Option Str) (dst : Str) :
    ((_fetch_git_repo R uri v dst).1).any Effect.isCreateRun = false := by
  unfold _fetch_git_repo
  cases v <;> dsimp only <;> split <;> simp [Effect.isCreateRun]

/-- The materialization step of `_fetch_project` never creates a run record. -/
theorem fetchMaterialize_no_createRun (W : World) (uri pu : Str) (v : Option Str)
    (ut : Bool) (dst : Str) :
    ((fetchMaterialize W uri pu v ut dst).1).any Effect.isCreateRun = false := by
  have hg := fetch_git_repo_no_createRun W.remote pu v dst
  unfold fetchMaterialize
  dsimp only
  repeat' split
  all_goals simp_all [Effect.isCreateRun]

/-- `_fetch_project` never creates a run record. -/
theorem fetch_project_no_createRun (W : World) (uri : Str) (f : Bool) (v : Option Str) :
    ((_fetch_project W uri f v).1).any Effect.isCreateRun = false := by
  unfold _fetch_project
  rcases hp : _parse_subdirectory uri with e | ⟨b, s⟩
  · simp
  · have hm := fetchMaterialize_no_createRun W uri b v
      (f || _is_zip_uri b || !(_is_local_uri b))
      (if f || _is_zip_uri b || !(_is_local_uri b) then W.tmpdir else b)
    rcases h : fetchMaterialize W uri b v
        (f || _is_zip_uri b || !(_is_local_uri b))
        (if f || _is_zip_uri b || !(_is_local_uri b) then W.tmpdir else b) with ⟨eff1, err⟩
    rw [h] at hm
    dsimp only
    rw [h]
    have hm2 : eff1.any Effect.isCreateRun = false := hm
    have h0 : ((if (f || _is_zip_uri b || !(_is_local_uri b)) = true
        then [Effect.mkdtemp W.tmpdir] else []) : List Effect).any Effect.isCreateRun = false := by
      split <;> simp [Effect.isCreateRun]
    cases err with
    | some e =>
      dsimp only
      simp only [List.any_append, hm2, h0, Bool.or_false]
    | none =>
      dsimp only
      split <;> split <;> simp [hm2, Effect.isCreateRun]

/-- C2: when validation fails — the backend+environment combination is
rejected or the supplied parameters fail the entry point's declared
validation — `_run` raises before any run record is created: the invocation
errors and its effect trace contains no `create_run` call. -/
theorem validation_failure_no_create_run (W : World) (uri eid ep : Str)
    (version : Option Str) (params : List (Str × Str)) (backend : Option Str)
    (uc : Bool) (sd : Option Str) (sync : Bool) (rid : Option Str)
    (h : _validate_execution_environment W.project backend ≠ none ∨
      W.validateParams ≠ none) :
    (_run W uri eid ep version params backend uc sd sync rid).failed = true ∧
    ((_run W uri eid ep version params backend uc sd sync rid).effects).any
      Effect.isCreateRun = false := by
  unfold _run
  rcases hf : _fetch_project W uri false version with ⟨effF, res⟩
  have hnc : effF.any Effect.isCreateRun = false := by
    have h2 := fetch_project_no_createRun W uri false version
    rw [hf] at h2
    exact h2
  cases res with
  | error e => exact ⟨rfl, hnc⟩
  | ok wd =>
    dsimp only
    cases henv : _validate_execution_environment W.project backend with
    | some e => exact ⟨rfl, hnc⟩
    | none =>
      rcases h with h | h
      · exact absurd henv h
      · cases hvp : W.validateParams with
        | none => exact absurd hvp h
        | some e => exact ⟨rfl, hnc⟩

/-- C2 witness: a failed parameter validation errors without any
`create_run` effect. -/
theorem validation_failure_no_create_run_witness :
    (_run worldBadParams (str "/tmp/proj") (str "0") (str "main") none
      [(str "alpha", str "bad")] none true none true none).failed = true ∧
    ((_run worldBadParams (str "/tmp/proj") (str "0") (str "main") none
      [(str "alpha", str "bad")] none true none true none).effects).any
      Effect.isCreateRun = false :=
  validation_failure_no_create_run worldBadParams (str "/tmp/proj") (str "0") (str "main")
    none [(str "alpha", str "bad")] none true none true none (Or.inr (by decide))

/-- C10: with a backend selector that is neither local, absent, nor
databricks, `_run` raises the unsupported-backend execution error only
after its side effects have occurred: the trace already contains the
fetch effects, the `create_run` call (no run id was supplied), and one
`log_param` call per computed parameter, in that order. -/
theorem unsupported_backend_after_side_effects (W : World) (uri eid ep wd bk : Str)
    (version : Option Str) (params : List (Str × Str)) (uc : Bool) (sd : Option Str)
    (sync : Bool) (effF : List Effect)
    (hf : _fetch_project W uri false version = (effF, .ok wd))
    (hb1 : bk ≠ str "databricks") (hb2 : bk ≠ str "local")
    (hv : W.validateParams = none) :
    _run W uri eid ep version params (some bk) uc sd sync none =
      ⟨effF ++ [(_create_run W uri eid wd ep).1] ++
        ((W.finalParams ++ W.extraParams).map
          (fun kv => Effect.logParam W.newRunId kv.1 kv.2)) ++
        runTagEffects W W.newRunId version,
       .error (.executionException (unsupportedBackendMsg (some bk)))⟩ := by
  have henv : _validate_execution_environment W.project (some bk) = none := by
    simp [_validate_execution_environment, hb1]
  have hbd : ¬ ((some bk : Option Str) = some (str "databricks")) := by simp [hb1]
  have hbl : ¬ ((some bk : Option Str) = some (str "local") ∨ (some bk : Option Str) = none) := by
    simp [hb2]
  unfold _run
  rw [hf]
  dsimp only
  rw [henv]
  dsimp only
  rw [hv]
  dsimp only
  rw [if_neg hbd, if_neg hbl]
  simp [_create_run, runTagEffects, List.append_assoc]

/-- C10 witness: the concrete backend `"kubernetes"` errors after creating
the run record and logging the computed parameter. -/
theorem unsupported_backend_after_side_effects_witness :
    _run baseWorld (str "/tmp/proj") (str "0") (str "main") none
      [(str "alpha", str "1")] (some (str "kubernetes")) true none true none =
      ⟨[] ++ [(_create_run baseWorld (str "/tmp/proj") (str "0") (str "/tmp/proj")
          (str "main")).1] ++
        ((baseWorld.finalParams ++ baseWorld.extraParams).map
          (fun kv => Effect.logParam baseWorld.newRunId kv.1 kv.2)) ++
        runTagEffects baseWorld baseWorld.newRunId none,
       .error (.executionException (unsupportedBackendMsg (some (str "kubernetes"))))⟩ :=
  unsupported_backend_after_side_effects baseWorld (str "/tmp/proj") (str "0") (str "main")
    (str "/tmp/proj") (str "kubernetes") none [(str "alpha", str "1")] true none true []
    (by decide) (by decide) (by decide) rfl

/-- In the conda strategy (no docker environment, `use_conda`), the local
branch launches the fragments joined with `" && "`. -/
theorem localBackendRun_conda_launch (W : World) (effPre : List Effect)
    (wd eid ep ar : Str) (params : List (Str × Str)) (sd : Option Str)
    (hd : truthyDict W.project.docker_env = false) (hcf : W.conda.condaFound = true) :
    Effect.launch (joinSep (str " && ")
      (_get_conda_command W.conda.conda_home
        (_get_conda_env_name W.fileContents W.project.conda_env_path none) ++
       [W.computeCommand params W.storageTmp])) wd ∈
      (localBackendRun W effPre wd eid ep params true sd true ar).effects := by
  by_cases hmem : _get_conda_env_name W.fileContents W.project.conda_env_path none ∈
      W.conda.envPaths.map basename <;>
    by_cases hts : truthyStr W.project.conda_env_path = true <;>
      simp [localBackendRun, dockerOrCondaSetup, _get_or_create_conda_env, hd, hcf, hmem,
        hts, _get_entry_point_command, _get_storage_dir]

/-- With no environment strategy (no docker environment, `use_conda`
false), the local branch launches the fragments joined with a single
space. -/
theorem localBackendRun_ambient_launch (W : World) (effPre : List Effect)
    (wd eid ep ar : Str) (params : List (Str × Str)) (sd : Option Str)
    (hd : truthyDict W.project.docker_env = false) :
    Effect.launch (joinSep (str " ") [W.computeCommand params W.storageTmp]) wd ∈
      (localBackendRun W effPre wd eid ep params false sd true ar).effects := by
  simp [localBackendRun, dockerOrCondaSetup, hd, _get_entry_point_command, _get_storage_dir]

/-- In the docker strategy, the local branch launches the docker command
fragments and the entry-point command joined with a single space. -/
theorem localBackendRun_docker_launch (W : World) (effPre eB : List Effect)
    (wd eid ep ar image : Str) (params : List (Str × Str)) (sd : Option Str) (uc : Bool)
    (hdt : truthyDict W.project.docker_env = true)
    (hval : _validate_docker_env (W.project.docker_env.getD []) = none)
    (hdf : W.dockerFound = true)
    (hbuild : _build_docker_image W wd W.project ar = (eB, .ok image)) :
    Effect.launch (joinSep (str " ")
      (_get_docker_command W image ar eid ++ [W.computeCommand params W.storageTmp])) wd ∈
      (localBackendRun W effPre wd eid ep params uc sd true ar).effects := by
  simp [localBackendRun, dockerOrCondaSetup, hdt, hval, hdf, hbuild,
    _get_entry_point_command, _get_storage_dir]

/-- With a local (or absent) backend, a successful fetch and passing
validation, `_run` reduces to the local backend branch. -/
theorem run_reduces_to_local (W : World) (uri eid ep wd : Str) (version : Option Str)
    (params : List (Str × Str)) (uc : Bool) (sd : Option Str) (rid : Option Str)
    (backend : Option Str) (effF : List Effect)
    (hb : backend = some (str "local") ∨ backend = none)
    (hf : _fetch_project W uri false version = (effF, .ok wd))
    (hv : W.validateParams = none) :
    ∃ effPre, _run W uri eid ep version params backend uc sd true rid =
      localBackendRun W effPre wd eid ep params uc sd true (activeRunOf W rid) := by
  have hld : str "local" ≠ str "databricks" := by decide
  rcases hb with hb | hb <;> subst hb
  · have henv : _validate_execution_environment W.project (some (str "local")) = none := by
      simp [_validate_execution_environment, hld]
    have hbd : ¬ ((some (str "local") : Option Str) = some (str "databricks")) := by
      simp [hld]
    unfold _run
    rw [hf]
    dsimp only
    rw [henv]
    dsimp only
    rw [hv]
    cases rid <;>
      · dsimp only
        rw [if_neg hbd, if_pos (Or.inl rfl)]
        exact ⟨_, rfl⟩
  · have henv : _validate_execution_environment W.project none = none := by
      simp [_validate_execution_environment]
    have hbd : ¬ ((none : Option Str) = some (str "databricks")) := by simp
    unfold _run
    rw [hf]
    dsimp only
    rw [henv]
    dsimp only
    rw [hv]
    cases rid <;>
      · dsimp only
        rw [if_neg hbd, if_pos (Or.inr rfl)]
        exact ⟨_, rfl⟩

/-- C8: in the synchronous local branch, the final command string joins its
fragments with a separator determined by the environment strategy: with a
conda activation step preceding the entry point the fragments are joined
with `" && "`; with no activation step (ambient execution, and likewise the
docker strategy, whose activation is implicit in the image) they are joined
with a single space. -/
theorem run_command_separator (W : World) (uri eid ep wd : Str) (version : Option Str)
    (params : List (Str × Str)) (uc : Bool) (sd : Option Str) (rid : Option Str)
    (backend : Option Str) (effF : List Effect)
    (hb : backend = some (str "local") ∨ backend = none)
    (hf : _fetch_project W uri false version = (effF, .ok wd))
    (hv : W.validateParams = none) :
    (truthyDict W.project.docker_env = false → W.conda.condaFound = true →
      Effect.launch (joinSep (str " && ")
        (_get_conda_command W.conda.conda_home
          (_get_conda_env_name W.fileContents W.project.conda_env_path none) ++
         [W.computeCommand params W.storageTmp])) wd ∈
        (_run W uri eid ep version params backend true sd true rid).effects) ∧
    (truthyDict W.project.docker_env = false →
      Effect.launch (joinSep (str " ") [W.computeCommand params W.storageTmp]) wd ∈
        (_run W uri eid ep version params backend false sd true rid).effects) ∧
    (∀ (eB : List Effect) (image : Str), truthyDict W.project.docker_env = true →
      _validate_docker_env (W.project.docker_env.getD []) = none →
      W.dockerFound = true →
      _build_docker_image W wd W.project (activeRunOf W rid) = (eB, .ok image) →
      Effect.launch (joinSep (str " ")
        (_get_docker_command W image (activeRunOf W rid) eid ++
         [W.computeCommand params W.storageTmp])) wd ∈
        (_run W uri eid ep version params backend uc sd true rid).effects) := by
  refine ⟨fun hd hcf => ?_, fun hd => ?_, fun eB image hdt hval hdf hbuild => ?_⟩
  · obtain ⟨effPre, heq⟩ := run_reduces_to_local W uri eid ep wd version params true sd rid
      backend effF hb hf hv
    rw [heq]
    exact localBackendRun_conda_launch W effPre wd eid ep (activeRunOf W rid) params sd hd hcf
  · obtain ⟨effPre, heq⟩ := run_reduces_to_local W uri eid ep wd version params false sd rid
      backend effF hb hf hv
    rw [heq]
    exact localBackendRun_ambient_launch W effPre wd eid ep (activeRunOf W rid) params sd hd
  · obtain ⟨effPre, heq⟩ := run_reduces_to_local W uri eid ep wd version params uc sd rid
      backend effF hb hf hv
    rw [heq]
    exact localBackendRun_docker_launch W effPre eB wd eid ep (activeRunOf W rid) image
      params sd uc hdt hval hdf hbuild

/-- C8 witness: on the baseline world the conda strategy launches the
activation fragment and entry command joined with `" && "`. -/
theorem run_command_separator_witness :
    Effect.launch (joinSep (str " && ")
      (_get_conda_command baseWorld.conda.conda_home
        (_get_conda_env_name baseWorld.fileContents baseWorld.project.conda_env_path none) ++
       [baseWorld.computeCommand [(str "alpha", str "1")] baseWorld.storageTmp]))
      (str "/tmp/proj") ∈
      (_run baseWorld (str "/tmp/proj") (str "0") (str "main") none
        [(str "alpha", str "1")] none true none true none).effects :=
  (run_command_separator baseWorld (str "/tmp/proj") (str "0") (str "main") (str "/tmp/proj")
    none [(str "alpha", str "1")] true none none none [] (Or.inr rfl) (by decide) rfl).1
    rfl rfl
